import Mathlib

/-!
Verification development for the `financial_scraper` repository.

The definitions below are a shallow embedding of the core fetch/crawl
orchestration engine, translated from the Python source:

* `src/financial_scraper/fetch/throttle.py`       (`DomainThrottler`)
* `src/financial_scraper/fetch/fingerprints.py`   (`BrowserFingerprint`)
* `src/financial_scraper/fetch/robots.py`         (`RobotChecker`)
* `src/financial_scraper/fetch/client.py`         (`FetchClient`)
* `src/financial_scraper/store/dedup.py`          (`Deduplicator`)
* `src/financial_scraper/checkpoint.py`           (`Checkpoint`)
* `src/financial_scraper/extract/links.py`        (link filtering)
* `src/financial_scraper/pipeline.py`             (`ScraperPipeline.run`)
* `src/financial_scraper/crawl/pipeline.py`       (`CrawlPipeline.run`)

Modelling conventions:

* Python `float` values that feed the throttle arithmetic are modelled
  as rationals (`ℚ`); every operation used (`*2`, `*1.5`, `*1.25`, `/2`,
  `min`, `max`) is exact on the decimal values involved.
* A Python `dict`/`Counter` is modelled as an association list with
  first-match lookup; a Python `set` of strings is modelled as a
  `Finset String` (resp. a duplicate-free insert list where the source
  manipulates it inline).
* `hashlib.sha256(...).hexdigest()` is modelled as the identity on its
  input string: the digest is used only as an (assumed injective) key
  for set membership, so membership semantics are preserved.
* Network and parser collaborators (aiohttp responses, `RobotFileParser`,
  BeautifulSoup link extraction, the search provider, `crawl4ai`) are
  external to the core; they enter the model as explicit oracles.
* Exceptions raised by Python code are modelled with `Except`; a raised
  exception propagates unless the source wraps the call in `try/except`.
-/

namespace FinancialScraper

/-! ## Generic association-list helpers (model of Python `dict`) -/

/-- First-match lookup in an association list (Python `dict.get(k)`). -/
def alookup (l : List (String × α)) (k : String) : Option α :=
  match l with
  | [] => none
  | (k', v) :: rest => if k' = k then some v else alookup rest k

/-- `d[k] = v` on an association list: replace the first binding of `k`,
or append a new binding at the end (Python dict assignment). -/
def aset (l : List (String × α)) (k : String) (v : α) : List (String × α) :=
  match l with
  | [] => [(k, v)]
  | (k', v') :: rest => if k' = k then (k, v) :: rest else (k', v') :: aset rest k v

theorem alookup_aset_self (l : List (String × α)) (k : String) (v : α) :
    alookup (aset l k v) k = some v := by
  induction l with
  | nil => simp [aset, alookup]
  | cons hd tl ih =>
    obtain ⟨k', v'⟩ := hd
    by_cases h : k' = k <;> simp [aset, alookup, h, ih]

theorem alookup_aset_other (l : List (String × α)) (k k' : String) (v : α)
    (h : k' ≠ k) : alookup (aset l k v) k' = alookup l k' := by
  induction l with
  | nil => simp [aset, alookup, Ne.symm h]
  | cons hd tl ih =>
    obtain ⟨k₀, v₀⟩ := hd
    by_cases h0 : k₀ = k
    · subst h0
      simp [aset, alookup, Ne.symm h]
    · by_cases h1 : k₀ = k'
      · subst h1
        simp [aset, alookup, h0]
      · simp [aset, alookup, h0, h1, ih]

/-! ## Character-list string primitives

Models of the Python `str` operations the source uses, written over
`List Char` so that concrete instances reduce inside the kernel.  The URLs
and hostnames involved are ASCII, where `Char.toLower` agrees with Python
`str.lower`. -/

/-- Python `s.lower()` (ASCII). -/
def lowerStr (s : String) : String := ⟨s.data.map Char.toLower⟩

/-- Python `s[:n]` (by characters). -/
def takeStr (s : String) (n : Nat) : String := ⟨s.data.take n⟩

/-- Python `s.strip()`. -/
def trimStr (s : String) : String :=
  ⟨((s.data.dropWhile Char.isWhitespace).reverse.dropWhile Char.isWhitespace).reverse⟩

/-- Python `s.endswith(suffix)`. -/
def endsWithStr (s suffix : String) : Bool :=
  suffix.data.isSuffixOf s.data

/-- Split on every non-overlapping occurrence of `sep` (nonempty), left to
right — Python `s.split(sep)` on a nonempty separator.  `fuel` bounds the
recursion; it is initialised to the text length, enough because each step
consumes at least one character. -/
def splitOnAuxL (sep : List Char) : Nat → List Char → List Char → List (List Char)
  | _, [], acc => [acc.reverse]
  | 0, l, acc => [acc.reverse ++ l]
  | fuel + 1, l@(c :: rest), acc =>
    if sep.isPrefixOf l && !sep.isEmpty then
      acc.reverse :: splitOnAuxL sep fuel (l.drop sep.length) []
    else
      splitOnAuxL sep fuel rest (c :: acc)

/-- Python `s.split(sep)` for a nonempty `sep`. -/
def splitOnStr (s sep : String) : List String :=
  (splitOnAuxL sep.data s.data.length s.data []).map (fun l => ⟨l⟩)

/-- Python `sep.join(parts)`. -/
def joinStr (sep : String) (parts : List String) : String :=
  match parts with
  | [] => ""
  | p :: rest => rest.foldl (fun acc q => acc ++ sep ++ q) p

/-- Python `s.replace(pat, rep)` for a nonempty `pat` (replace every
non-overlapping occurrence, left to right). -/
def replaceStr (s pat rep : String) : String :=
  joinStr rep (splitOnStr s pat)

/-- Python `s.isdigit()` on ASCII digits. -/
def isDigitStr (s : String) : Bool :=
  !s.data.isEmpty && s.data.all Char.isDigit

/-- Python `float(s)` on an all-digits string, as a natural number. -/
def digitsToNat (s : String) : Nat :=
  s.data.foldl (fun n c => n * 10 + (c.toNat - 48)) 0

/-! ## `DomainThrottler` (fetch/throttle.py)

State relevant to the adaptive delay: the constructor parameters and the
`_extra_delays` dict.  The `AsyncLimiter`/`Semaphore` maps only matter to
`acquire`/`release` (real-time behaviour, out of model). -/

structure DomainThrottler where
  base_rate : ℚ := 1
  max_delay : ℚ := 30
  max_per_domain : Nat := 3
  extra_delays : List (String × ℚ) := []
  deriving Repr, DecidableEq

namespace DomainThrottler

/-- The pending extra-delay for a domain, as `acquire` observes it:
`self._extra_delays.get(domain, 0)`. -/
def get_delay (st : DomainThrottler) (domain : String) : ℚ :=
  (alookup st.extra_delays domain).getD 0

/-- `report_success`: halve extra delay on success (minimum 0); a no-op when
the domain has no `_extra_delays` entry (`if domain in self._extra_delays`). -/
def report_success (st : DomainThrottler) (domain : String) : DomainThrottler :=
  match alookup st.extra_delays domain with
  | none => st
  | some v =>
    { st with extra_delays := aset st.extra_delays domain (max 0 (v / 2)) }

/-- `report_failure`: increase delay based on failure type.
`current = self._extra_delays.get(domain, 1.0) or 1.0` (a stored `0.0` is
falsy, so it is replaced by the `1.0` floor). -/
def report_failure (st : DomainThrottler) (domain : String) (status : Nat)
    (retry_after : Option ℚ) : DomainThrottler :=
  let current0 := (alookup st.extra_delays domain).getD 1
  let current := if current0 = 0 then 1 else current0
  if status = 429 then
    match retry_after with
    | some ra =>
      { st with extra_delays := aset st.extra_delays domain (min ra st.max_delay) }
    | none =>
      { st with extra_delays := aset st.extra_delays domain (min (current * 2) st.max_delay) }
  else if status = 403 then
    { st with extra_delays := aset st.extra_delays domain (min (current * (3 / 2)) st.max_delay) }
  else if 500 ≤ status then
    { st with extra_delays := aset st.extra_delays domain (min (current * (5 / 4)) st.max_delay) }
  else
    st

/-- The `or 1.0` floor, expressed on the observable delay. -/
def floor1 (x : ℚ) : ℚ := if x = 0 then 1 else x

theorem get_delay_report_success_self (st : DomainThrottler) (d : String) :
    (st.report_success d).get_delay d = max 0 (st.get_delay d / 2) := by
  unfold report_success get_delay
  cases h : alookup st.extra_delays d with
  | none => simp [h]
  | some v => simp [h, alookup_aset_self]

theorem get_delay_report_success_other (st : DomainThrottler) (d d' : String)
    (h : d' ≠ d) : (st.report_success d).get_delay d' = st.get_delay d' := by
  unfold report_success get_delay
  cases h0 : alookup st.extra_delays d with
  | none => simp [h0]
  | some v => simp [h0, alookup_aset_other _ _ _ _ h]

/-- The `current` value computed by `report_failure`, in terms of the
observable delay. -/
theorem report_failure_current (st : DomainThrottler) (d : String) :
    (let current0 := (alookup st.extra_delays d).getD 1
     if current0 = 0 then 1 else current0) = floor1 (st.get_delay d) := by
  unfold floor1 get_delay
  cases h : alookup st.extra_delays d with
  | none => simp [h]
  | some v =>
    by_cases hv : v = 0 <;> simp [h, hv]

theorem get_delay_report_failure_429_some (st : DomainThrottler) (d : String) (ra : ℚ) :
    (st.report_failure d 429 (some ra)).get_delay d = min ra st.max_delay := by
  unfold report_failure get_delay
  simp [alookup_aset_self]

theorem get_delay_report_failure_429_none (st : DomainThrottler) (d : String) :
    (st.report_failure d 429 none).get_delay d
      = min (floor1 (st.get_delay d) * 2) st.max_delay := by
  have hc := report_failure_current st d
  unfold report_failure get_delay
  simp only [get_delay] at hc
  simp [alookup_aset_self, hc]

theorem get_delay_report_failure_403 (st : DomainThrottler) (d : String)
    (ra : Option ℚ) :
    (st.report_failure d 403 ra).get_delay d
      = min (floor1 (st.get_delay d) * (3 / 2)) st.max_delay := by
  have hc := report_failure_current st d
  unfold report_failure get_delay
  simp only [get_delay] at hc
  simp [alookup_aset_self, hc]

theorem get_delay_report_failure_5xx (st : DomainThrottler) (d : String)
    (status : Nat) (ra : Option ℚ) (h5 : 500 ≤ status)
    (h429 : status ≠ 429) (h403 : status ≠ 403) :
    (st.report_failure d status ra).get_delay d
      = min (floor1 (st.get_delay d) * (5 / 4)) st.max_delay := by
  have hc := report_failure_current st d
  unfold report_failure get_delay
  simp only [get_delay] at hc
  simp [alookup_aset_self, hc, h5, h429, h403]

theorem report_failure_other_status (st : DomainThrottler) (d : String)
    (status : Nat) (ra : Option ℚ) (h429 : status ≠ 429) (h403 : status ≠ 403)
    (h5 : status < 500) :
    st.report_failure d status ra = st := by
  unfold report_failure
  simp [h429, h403, Nat.not_le.mpr h5]

theorem max_delay_report_success (st : DomainThrottler) (d : String) :
    (st.report_success d).max_delay = st.max_delay := by
  unfold report_success
  cases h : alookup st.extra_delays d <;> simp [h]

theorem max_delay_report_failure (st : DomainThrottler) (d : String)
    (status : Nat) (ra : Option ℚ) :
    (st.report_failure d status ra).max_delay = st.max_delay := by
  unfold report_failure
  by_cases h1 : status = 429
  · cases ra <;> simp [h1]
  · by_cases h2 : status = 403
    · simp [h1, h2]
    · by_cases h3 : 500 ≤ status <;> simp [h1, h2, h3]

theorem get_delay_report_failure_other (st : DomainThrottler) (d d' : String)
    (status : Nat) (ra : Option ℚ) (h : d' ≠ d) :
    (st.report_failure d status ra).get_delay d' = st.get_delay d' := by
  unfold report_failure get_delay
  by_cases h1 : status = 429
  · cases ra <;> simp [h1, alookup_aset_other _ _ _ _ h]
  · by_cases h2 : status = 403
    · simp [h1, h2, alookup_aset_other _ _ _ _ h]
    · by_cases h3 : 500 ≤ status <;>
        simp [h1, h2, h3, alookup_aset_other _ _ _ _ h]

theorem floor1_nonneg {x : ℚ} (hx : 0 ≤ x) : 0 ≤ floor1 x := by
  unfold floor1
  split <;> [norm_num; exact hx]

theorem floor1_of_pos {x : ℚ} (hx : 0 < x) : floor1 x = x := by
  unfold floor1
  simp [ne_of_gt hx]

/-- One `report_failure` call keeps the delay of the reported domain inside
`[0, max_delay]`, provided `retry_after` (when given) is nonnegative. -/
theorem get_delay_report_failure_self_range (st : DomainThrottler) (d : String)
    (status : Nat) (ra : Option ℚ) (hM : 0 ≤ st.max_delay)
    (hx : 0 ≤ st.get_delay d) (hxM : st.get_delay d ≤ st.max_delay)
    (hra : ∀ r, ra = some r → 0 ≤ r) :
    0 ≤ (st.report_failure d status ra).get_delay d ∧
      (st.report_failure d status ra).get_delay d ≤ st.max_delay := by
  have hfl : 0 ≤ floor1 (st.get_delay d) := floor1_nonneg hx
  by_cases h1 : status = 429
  · subst h1
    cases ra with
    | none =>
      rw [get_delay_report_failure_429_none]
      constructor
      · exact le_min (by linarith) hM
      · exact min_le_right _ _
    | some r =>
      rw [get_delay_report_failure_429_some]
      exact ⟨le_min (hra r rfl) hM, min_le_right _ _⟩
  · by_cases h2 : status = 403
    · subst h2
      rw [get_delay_report_failure_403]
      constructor
      · exact le_min (by linarith) hM
      · exact min_le_right _ _
    · by_cases h3 : 500 ≤ status
      · rw [get_delay_report_failure_5xx st d status ra h3 h1 h2]
        constructor
        · exact le_min (by linarith) hM
        · exact min_le_right _ _
      · rw [report_failure_other_status st d status ra h1 h2 (Nat.not_le.mp h3)]
        exact ⟨hx, hxM⟩

/-- One `report_success` call keeps the delay of every domain inside
`[0, max_delay]`. -/
theorem get_delay_report_success_range (st : DomainThrottler) (d d' : String)
    (hM : 0 ≤ st.max_delay) (hx : 0 ≤ st.get_delay d')
    (hxM : st.get_delay d' ≤ st.max_delay) :
    0 ≤ (st.report_success d).get_delay d' ∧
      (st.report_success d).get_delay d' ≤ st.max_delay := by
  by_cases h : d' = d
  · subst h
    rw [get_delay_report_success_self]
    refine ⟨le_max_left _ _, max_le hM (by linarith)⟩
  · rw [get_delay_report_success_other st d d' h]
    exact ⟨hx, hxM⟩

end DomainThrottler

/-- A call in the `report_success`/`report_failure` interface of
`DomainThrottler` (the claims' "finite sequence of calls"). -/
inductive ThrottleOp where
  | success (domain : String)
  | failure (domain : String) (status : Nat) (retry_after : Option ℚ)
  deriving Repr, DecidableEq

/-- Apply a single reporting call to the throttler state. -/
def ThrottleOp.apply (st : DomainThrottler) : ThrottleOp → DomainThrottler
  | .success d => st.report_success d
  | .failure d status ra => st.report_failure d status ra

/-- Apply a finite sequence of reporting calls, left to right. -/
def ThrottleOp.applyAll (st : DomainThrottler) (ops : List ThrottleOp) :
    DomainThrottler :=
  ops.foldl ThrottleOp.apply st

/-- A call is valid when its `retry_after`, if provided, is nonnegative. -/
def ThrottleOp.valid : ThrottleOp → Prop
  | .failure _ _ (some ra) => 0 ≤ ra
  | _ => True

theorem ThrottleOp.max_delay_apply (st : DomainThrottler) (op : ThrottleOp) :
    (op.apply st).max_delay = st.max_delay := by
  cases op with
  | success d => exact DomainThrottler.max_delay_report_success st d
  | failure d s ra => exact DomainThrottler.max_delay_report_failure st d s ra

theorem ThrottleOp.get_delay_apply_range (st : DomainThrottler) (op : ThrottleOp)
    (hv : op.valid) (hM : 0 ≤ st.max_delay)
    (hall : ∀ d, 0 ≤ st.get_delay d ∧ st.get_delay d ≤ st.max_delay) :
    ∀ d, 0 ≤ (op.apply st).get_delay d ∧
      (op.apply st).get_delay d ≤ st.max_delay := by
  intro d
  cases op with
  | success d0 =>
    exact DomainThrottler.get_delay_report_success_range st d0 d hM
      (hall d).1 (hall d).2
  | failure d0 status ra =>
    simp only [ThrottleOp.apply]
    by_cases h : d = d0
    · subst h
      refine DomainThrottler.get_delay_report_failure_self_range st d status ra hM
        (hall d).1 (hall d).2 ?_
      intro r hr
      subst hr
      exact hv
    · rw [DomainThrottler.get_delay_report_failure_other st d0 d status ra h]
      exact hall d

/-- Invariant: starting from a state whose delays all lie in `[0, max_delay]`,
any valid sequence of reporting calls keeps every domain's delay in range. -/
theorem ThrottleOp.get_delay_applyAll_range (ops : List ThrottleOp) :
    ∀ st : DomainThrottler, (∀ op ∈ ops, op.valid) → 0 ≤ st.max_delay →
    (∀ d, 0 ≤ st.get_delay d ∧ st.get_delay d ≤ st.max_delay) →
    ∀ d, 0 ≤ (ThrottleOp.applyAll st ops).get_delay d ∧
      (ThrottleOp.applyAll st ops).get_delay d ≤ st.max_delay := by
  induction ops with
  | nil => intro st _ _ hall d; exact hall d
  | cons op rest ih =>
    intro st hv hM hall d
    have hstep := ThrottleOp.get_delay_apply_range st op
      (hv op (by simp)) hM hall
    have hM' : 0 ≤ (op.apply st).max_delay := by
      rw [ThrottleOp.max_delay_apply]; exact hM
    have hall' : ∀ d, 0 ≤ (op.apply st).get_delay d ∧
        (op.apply st).get_delay d ≤ (op.apply st).max_delay := by
      intro d'
      rw [ThrottleOp.max_delay_apply]
      exact hstep d'
    have hres := ih (op.apply st) (fun o ho => hv o (by simp [ho])) hM' hall' d
    rw [ThrottleOp.max_delay_apply] at hres
    simpa [ThrottleOp.applyAll] using hres

namespace DomainThrottler

/-- `n` consecutive `report_failure(domain, 429)` calls with no `retry_after`. -/
def iterate_fail429 (st : DomainThrottler) (d : String) : Nat → DomainThrottler
  | 0 => st
  | n + 1 => (iterate_fail429 st d n).report_failure d 429 none

/-- `n` consecutive `report_success(domain)` calls. -/
def iterate_success (st : DomainThrottler) (d : String) : Nat → DomainThrottler
  | 0 => st
  | n + 1 => (iterate_success st d n).report_success d

theorem max_delay_iterate_fail429 (st : DomainThrottler) (d : String) (n : Nat) :
    (st.iterate_fail429 d n).max_delay = st.max_delay := by
  induction n with
  | zero => rfl
  | succ n ih => rw [iterate_fail429, max_delay_report_failure, ih]

/-- Repeated no-`retry_after` 429 failures double the delay each time,
saturating at `max_delay` (in the regime where the delay is at least the
1-second floor). -/
theorem get_delay_iterate_fail429 (st : DomainThrottler) (d : String)
    (h1 : 1 ≤ st.get_delay d) (hM : st.get_delay d ≤ st.max_delay) (n : Nat) :
    (st.iterate_fail429 d n).get_delay d
      = min (st.get_delay d * 2 ^ n) st.max_delay := by
  induction n with
  | zero =>
    simp [iterate_fail429, min_eq_left hM]
  | succ n ih =>
    have hM1 : (1 : ℚ) ≤ st.max_delay := le_trans h1 hM
    have h2n : (1 : ℚ) ≤ 2 ^ n := one_le_pow₀ (by norm_num)
    have hx2n : (1 : ℚ) ≤ st.get_delay d * 2 ^ n := by nlinarith
    have hmin : (1 : ℚ) ≤ min (st.get_delay d * 2 ^ n) st.max_delay :=
      le_min hx2n hM1
    rw [iterate_fail429, get_delay_report_failure_429_none, ih,
      max_delay_iterate_fail429, floor1_of_pos (by linarith)]
    rcases le_total (st.get_delay d * 2 ^ n) st.max_delay with h | h
    · rw [min_eq_left h]
      congr 1
      ring
    · rw [min_eq_right h, min_eq_right (by linarith),
        min_eq_right (by nlinarith [pow_succ (2 : ℚ) n])]

/-- Repeated `report_success` calls halve the delay each time: after `n`
calls the delay is `x / 2^n`, hence nonincreasing and saturating at 0. -/
theorem get_delay_iterate_success (st : DomainThrottler) (d : String)
    (hx : 0 ≤ st.get_delay d) (n : Nat) :
    (st.iterate_success d n).get_delay d = st.get_delay d / 2 ^ n := by
  induction n with
  | zero => simp [iterate_success]
  | succ n ih =>
    rw [iterate_success, get_delay_report_success_self, ih]
    rw [max_eq_right (by positivity)]
    rw [pow_succ]
    ring

end DomainThrottler

/-! ## `Deduplicator` (store/dedup.py)

`_hash_url`/`_hash_content` apply `hashlib.sha256(...).hexdigest()`; the
digest is modelled as the identity on the hashed string (the digest acts
only as an injective set-membership key).  The MinHash/LSH index (the
`datasketch` optional dependency) is modelled as the list of documents
inserted so far, `none` when the library is missing, with the probabilistic
`MinHashLSH.query` result supplied as an oracle `lshQuery`. -/

structure Deduplicator where
  seen_urls : List String := []
  seen_content : List String := []
  lsh_docs : Option (List String) := none
  deriving Repr, DecidableEq

namespace Deduplicator

/-- Insertion into a Python `set`, modelled on a duplicate-free list. -/
def insertSet (x : String) (l : List String) : List String :=
  if x ∈ l then l else x :: l

theorem mem_insertSet_self (x : String) (l : List String) : x ∈ insertSet x l := by
  unfold insertSet
  split <;> simp_all

theorem mem_insertSet_of_mem (x y : String) (l : List String) (h : y ∈ l) :
    y ∈ insertSet x l := by
  unfold insertSet
  split <;> simp_all

/-- `_normalize_url`: remove the fragment (`urldefrag`, i.e. everything from
the first `#`), lowercase, strip all trailing slashes (`rstrip("/")`). -/
def normalize_url (url : String) : String :=
  let defragged : String := ⟨url.data.takeWhile (fun c => !(c == '#'))⟩
  let lowered := lowerStr defragged
  ⟨(lowered.data.reverse.dropWhile (fun c => c == '/')).reverse⟩

/-- `_hash_url`: sha256 of the normalized URL (digest modelled as identity). -/
def hash_url (url : String) : String := normalize_url url

/-- `_hash_content`: sha256 of the first 2000 characters (digest modelled as
identity). -/
def hash_content (content : String) : String := takeStr content 2000

/-- `is_duplicate_url`. -/
def is_duplicate_url (dd : Deduplicator) (url : String) : Bool :=
  hash_url url ∈ dd.seen_urls

/-- `is_duplicate_content`: exact first-2000-chars hash lookup, then the
fuzzy LSH query (`lshQuery` oracle) when the index exists and the content is
non-blank. -/
def is_duplicate_content (lshQuery : List String → String → Bool)
    (dd : Deduplicator) (content : String) : Bool :=
  if hash_content content ∈ dd.seen_content then
    true
  else
    match dd.lsh_docs with
    | some docs => if trimStr content ≠ "" then lshQuery docs content else false
    | none => false

/-- `mark_seen`: record the URL hash always; record the content hash and
insert into the LSH index only when `content` is non-empty. -/
def mark_seen (dd : Deduplicator) (url content : String) : Deduplicator :=
  let dd := { dd with seen_urls := insertSet (hash_url url) dd.seen_urls }
  if content ≠ "" then
    { dd with
      seen_content := insertSet (hash_content content) dd.seen_content
      lsh_docs := dd.lsh_docs.map (fun docs => docs ++ [content]) }
  else
    dd

theorem seen_urls_mark_seen (dd : Deduplicator) (url content : String) :
    (dd.mark_seen url content).seen_urls
      = insertSet (hash_url url) dd.seen_urls := by
  unfold mark_seen
  by_cases h : content ≠ "" <;> simp [h]

theorem seen_content_mark_seen (dd : Deduplicator) (url content : String)
    (h : content ≠ "") :
    (dd.mark_seen url content).seen_content
      = insertSet (hash_content content) dd.seen_content := by
  unfold mark_seen
  simp [h]

theorem is_duplicate_url_mark_seen_of_hash_eq (dd : Deduplicator)
    (content u1 u2 : String) (h : hash_url u2 = hash_url u1) :
    (dd.mark_seen u1 content).is_duplicate_url u2 = true := by
  have hmem : hash_url u2 ∈ (dd.mark_seen u1 content).seen_urls := by
    rw [seen_urls_mark_seen, h]
    exact mem_insertSet_self _ _
  simpa [Deduplicator.is_duplicate_url] using hmem

end Deduplicator

/-! ## `Checkpoint` (checkpoint.py)

Python `set`s are modelled as `Finset String`; the JSON payload written by
`save` (`json.dump(data, f)` after `list(...)` conversion) is modelled as
`CheckpointData`; `load` reads it back into a (fresh) instance.  The
write-temp-then-`os.replace` atomicity is a filesystem property outside the
model. -/

structure CheckpointStats where
  total_queries : Nat := 0
  total_pages : Nat := 0
  total_words : Nat := 0
  failed_fetches : Nat := 0
  failed_extractions : Nat := 0
  deriving Repr, DecidableEq

structure Checkpoint where
  path : String
  completed_queries : Finset String := ∅
  fetched_urls : Finset String := ∅
  failed_urls : List (String × Nat) := []
  stats : CheckpointStats := {}
  deriving DecidableEq

/-- The on-disk JSON payload produced by `Checkpoint.save`. -/
structure CheckpointData where
  completed_queries : List String
  fetched_urls : List String
  failed_urls : List (String × Nat)
  stats : CheckpointStats
  deriving Repr, DecidableEq

namespace Checkpoint

/-- `Checkpoint.__init__`. -/
def init (path : String) : Checkpoint := { path := path }

/-- `save`: serialize state (`list(set)` conversion loses only order). -/
def save (cp : Checkpoint) : CheckpointData :=
  { completed_queries := cp.completed_queries.sort (· ≤ ·)
    fetched_urls := cp.fetched_urls.sort (· ≤ ·)
    failed_urls := cp.failed_urls
    stats := cp.stats }

/-- `load`: replace the fields of an existing instance from the payload. -/
def load (data : CheckpointData) (cp : Checkpoint) : Checkpoint :=
  { cp with
    completed_queries := data.completed_queries.toFinset
    fetched_urls := data.fetched_urls.toFinset
    failed_urls := data.failed_urls
    stats := data.stats }

/-- `is_query_done`. -/
def is_query_done (cp : Checkpoint) (query : String) : Bool :=
  decide (query ∈ cp.completed_queries)

/-- `mark_query_done` (the `self.save()` call persists; persistence is
modelled by `save`). -/
def mark_query_done (cp : Checkpoint) (query : String) : Checkpoint :=
  { cp with
    completed_queries := insert query cp.completed_queries
    stats := { cp.stats with total_queries := cp.stats.total_queries + 1 } }

/-- `is_url_fetched`. -/
def is_url_fetched (cp : Checkpoint) (url : String) : Bool :=
  decide (url ∈ cp.fetched_urls)

/-- `mark_url_fetched`. -/
def mark_url_fetched (cp : Checkpoint) (url : String) : Checkpoint :=
  { cp with fetched_urls := insert url cp.fetched_urls }

/-- `mark_url_failed`: increment the per-URL failure counter and the global
`failed_fetches` counter. -/
def mark_url_failed (cp : Checkpoint) (url : String) : Checkpoint :=
  { cp with
    failed_urls := aset cp.failed_urls url ((alookup cp.failed_urls url).getD 0 + 1)
    stats := { cp.stats with failed_fetches := cp.stats.failed_fetches + 1 } }

/-- `should_retry`. -/
def should_retry (cp : Checkpoint) (url : String) (max_retries : Nat := 3) : Bool :=
  decide ((alookup cp.failed_urls url).getD 0 < max_retries)

/-- `reset_queries`: clear completed queries and stats, keep URL history. -/
def reset_queries (cp : Checkpoint) : Checkpoint :=
  { cp with completed_queries := ∅, stats := {} }

theorem toFinset_sort (s : Finset String) :
    ((s.sort (· ≤ ·)).toFinset : Finset String) = s := by
  ext a
  simp [List.mem_toFinset, Finset.mem_sort]

theorem load_save_completed (cp fresh : Checkpoint) :
    (load (save cp) fresh).completed_queries = cp.completed_queries := by
  simp [load, save, toFinset_sort]

theorem load_save_fetched (cp fresh : Checkpoint) :
    (load (save cp) fresh).fetched_urls = cp.fetched_urls := by
  simp [load, save, toFinset_sort]

end Checkpoint

/-! ## `BrowserFingerprint` (fetch/fingerprints.py)

Python's salted `hash(domain)` is supplied as an oracle `pyHash`; within one
process it is a fixed function of the domain. -/

structure BrowserFingerprint where
  name : String
  user_agent : String
  accept : String
  accept_language : String
  accept_encoding : String
  sec_ch_ua : Option String
  sec_ch_ua_mobile : Option String
  sec_ch_ua_platform : Option String
  sec_fetch_site : String
  sec_fetch_mode : String
  sec_fetch_dest : String
  upgrade_insecure_requests : String
  deriving Repr, DecidableEq

namespace BrowserFingerprint

/-- `to_headers`: headers dict, excluding `None` values. -/
def to_headers (fp : BrowserFingerprint) : List (String × String) :=
  [("User-Agent", fp.user_agent), ("Accept", fp.accept),
   ("Accept-Language", fp.accept_language),
   ("Accept-Encoding", fp.accept_encoding),
   ("Sec-Fetch-Site", fp.sec_fetch_site),
   ("Sec-Fetch-Mode", fp.sec_fetch_mode),
   ("Sec-Fetch-Dest", fp.sec_fetch_dest),
   ("Upgrade-Insecure-Requests", fp.upgrade_insecure_requests)]
  ++ (match fp.sec_ch_ua with
      | some v => [("Sec-CH-UA", v)]
      | none => [])
  ++ (match fp.sec_ch_ua_mobile with
      | some v => [("Sec-CH-UA-Mobile", v)]
      | none => [])
  ++ (match fp.sec_ch_ua_platform with
      | some v => [("Sec-CH-UA-Platform", v)]
      | none => [])

end BrowserFingerprint

def CHROME_WINDOWS : BrowserFingerprint :=
  { name := "Chrome 122 Windows"
    user_agent := "Mozilla/5.0 (Windows NT 10.0; Win64; x64) AppleWebKit/537.36 (KHTML, like Gecko) Chrome/122.0.0.0 Safari/537.36"
    accept := "text/html,application/xhtml+xml,application/xml;q=0.9,image/avif,image/webp,image/apng,*/*;q=0.8"
    accept_language := "en-US,en;q=0.9"
    accept_encoding := "gzip, deflate, br"
    sec_ch_ua := some "\"Chromium\";v=\"122\", \"Not(A:Brand\";v=\"24\", \"Google Chrome\";v=\"122\""
    sec_ch_ua_mobile := some "?0"
    sec_ch_ua_platform := some "\"Windows\""
    sec_fetch_site := "none"
    sec_fetch_mode := "navigate"
    sec_fetch_dest := "document"
    upgrade_insecure_requests := "1" }

def CHROME_MAC : BrowserFingerprint :=
  { name := "Chrome 122 macOS"
    user_agent := "Mozilla/5.0 (Macintosh; Intel Mac OS X 10_15_7) AppleWebKit/537.36 (KHTML, like Gecko) Chrome/122.0.0.0 Safari/537.36"
    accept := "text/html,application/xhtml+xml,application/xml;q=0.9,image/avif,image/webp,image/apng,*/*;q=0.8"
    accept_language := "en-US,en;q=0.9"
    accept_encoding := "gzip, deflate, br"
    sec_ch_ua := some "\"Chromium\";v=\"122\", \"Not(A:Brand\";v=\"24\", \"Google Chrome\";v=\"122\""
    sec_ch_ua_mobile := some "?0"
    sec_ch_ua_platform := some "\"macOS\""
    sec_fetch_site := "none"
    sec_fetch_mode := "navigate"
    sec_fetch_dest := "document"
    upgrade_insecure_requests := "1" }

def FIREFOX_WINDOWS : BrowserFingerprint :=
  { name := "Firefox 123 Windows"
    user_agent := "Mozilla/5.0 (Windows NT 10.0; Win64; x64; rv:123.0) Gecko/20100101 Firefox/123.0"
    accept := "text/html,application/xhtml+xml,application/xml;q=0.9,image/avif,image/webp,*/*;q=0.8"
    accept_language := "en-US,en;q=0.5"
    accept_encoding := "gzip, deflate, br"
    sec_ch_ua := none
    sec_ch_ua_mobile := none
    sec_ch_ua_platform := none
    sec_fetch_site := "none"
    sec_fetch_mode := "navigate"
    sec_fetch_dest := "document"
    upgrade_insecure_requests := "1" }

def SAFARI_MAC : BrowserFingerprint :=
  { name := "Safari 17 macOS"
    user_agent := "Mozilla/5.0 (Macintosh; Intel Mac OS X 10_15_7) AppleWebKit/605.1.15 (KHTML, like Gecko) Version/17.2.1 Safari/605.1.15"
    accept := "text/html,application/xhtml+xml,application/xml;q=0.9,*/*;q=0.8"
    accept_language := "en-US,en;q=0.9"
    accept_encoding := "gzip, deflate, br"
    sec_ch_ua := none
    sec_ch_ua_mobile := none
    sec_ch_ua_platform := none
    sec_fetch_site := "none"
    sec_fetch_mode := "navigate"
    sec_fetch_dest := "document"
    upgrade_insecure_requests := "1" }

def EDGE_WINDOWS : BrowserFingerprint :=
  { name := "Edge 122 Windows"
    user_agent := "Mozilla/5.0 (Windows NT 10.0; Win64; x64) AppleWebKit/537.36 (KHTML, like Gecko) Chrome/122.0.0.0 Safari/537.36 Edg/122.0.0.0"
    accept := "text/html,application/xhtml+xml,application/xml;q=0.9,image/avif,image/webp,image/apng,*/*;q=0.8"
    accept_language := "en-US,en;q=0.9"
    accept_encoding := "gzip, deflate, br"
    sec_ch_ua := some "\"Chromium\";v=\"122\", \"Not(A:Brand\";v=\"24\", \"Microsoft Edge\";v=\"122\""
    sec_ch_ua_mobile := some "?0"
    sec_ch_ua_platform := some "\"Windows\""
    sec_fetch_site := "none"
    sec_fetch_mode := "navigate"
    sec_fetch_dest := "document"
    upgrade_insecure_requests := "1" }

def ALL_FINGERPRINTS : List BrowserFingerprint :=
  [CHROME_WINDOWS, CHROME_MAC, FIREFOX_WINDOWS, SAFARI_MAC, EDGE_WINDOWS]

/-- `get_fingerprint_for_domain`: `ALL_FINGERPRINTS[hash(domain) % len(...)]`,
deterministic per domain for a fixed process hash `pyHash`. -/
def get_fingerprint_for_domain (pyHash : String → Nat) (domain : String) :
    BrowserFingerprint :=
  ALL_FINGERPRINTS.getD (pyHash domain % ALL_FINGERPRINTS.length) CHROME_WINDOWS

/-- `list.index` of the profile assigned to a domain recovers its rotation
index (the five profiles are pairwise distinct). -/
theorem indexOf_get_fingerprint (pyHash : String → Nat) (domain : String) :
    ALL_FINGERPRINTS.indexOf (get_fingerprint_for_domain pyHash domain)
      = pyHash domain % ALL_FINGERPRINTS.length := by
  have h5 : ALL_FINGERPRINTS.length = 5 := by rfl
  have hlt : pyHash domain % ALL_FINGERPRINTS.length < 5 := by
    rw [h5]
    exact Nat.mod_lt _ (by norm_num)
  unfold get_fingerprint_for_domain
  interval_cases h : (pyHash domain % ALL_FINGERPRINTS.length) <;> decide

/-! ## URL component helpers (model of `urllib.parse.urlparse` on the
`http(s)` URLs the scraper handles) -/

/-- `urlparse(url).scheme` for URLs of the form `scheme://...`. -/
def url_scheme (url : String) : String :=
  match splitOnStr url "://" with
  | _ :: [] => ""
  | s :: _ => s
  | [] => ""

/-- `urlparse(url).netloc`: the part between `://` and the next `/`, `?`
or `#`; empty for URLs without `://`. -/
def url_netloc (url : String) : String :=
  match splitOnStr url "://" with
  | _ :: rest :: _ =>
    ⟨rest.data.takeWhile (fun c => !(c == '/' || c == '?' || c == '#'))⟩
  | _ => ""

/-- `urlparse(url).path`: from the first `/` after the netloc up to the
query/fragment. -/
def url_path (url : String) : String :=
  match splitOnStr url "://" with
  | _ :: rest :: _ =>
    ⟨((rest.data.dropWhile (fun c => !(c == '/' || c == '?' || c == '#'))).takeWhile
        (fun c => !(c == '?' || c == '#')))⟩
  | _ => ⟨url.data.takeWhile (fun c => !(c == '?' || c == '#'))⟩

/-- Python `sub in s` substring test. -/
def contains_sub (s sub : String) : Bool :=
  (splitOnStr s sub).length > 1

/-! ## `RobotChecker` (fetch/robots.py)

The stdlib `RobotFileParser` is external: a parsed robots file is modelled
as its `can_fetch` verdict function (`none` = the call raised, which the
source converts to a permissive `True`).  `_fetch_robots` is the network
oracle `fetchRobots`: it returns `none` when the robots.txt fetch failed,
returned non-200, or raised (the fail-open sentinel). -/

structure RobotsParser where
  can_fetch : String → String → Option Bool

structure RobotChecker where
  cache : List (String × Option RobotsParser) := []
  user_agent : String := "Mozilla/5.0"

namespace RobotChecker

/-- `is_allowed`: fill the per-origin cache on first touch, then consult the
cached parser; permissive default when the parser is the `None` sentinel or
`can_fetch` raises.  Returns the verdict and the updated checker. -/
def is_allowed (rc : RobotChecker) (fetchRobots : String → Option RobotsParser)
    (url : String) : Bool × RobotChecker :=
  let domain_url := url_scheme url ++ "://" ++ url_netloc url
  let cache :=
    match alookup rc.cache domain_url with
    | some _ => rc.cache
    | none => aset rc.cache domain_url (fetchRobots domain_url)
  let rc' := { rc with cache := cache }
  match (alookup cache domain_url).getD none with
  | none => (true, rc')
  | some p =>
    match p.can_fetch rc.user_agent url with
    | some b => (b, rc')
    | none => (true, rc')

end RobotChecker

/-! ## `FetchClient` (fetch/client.py)

The network is the oracle `oracle : Nat → Except String HttpResponse`
giving the outcome of the `n`-th GET of the target URL (`Except.error` =
transport exception).  The model returns, besides the `FetchResult`, the
updated throttler, the number of GETs performed on the target URL and the
fingerprints used for them. -/

structure ScraperConfig where
  respect_robots : Bool := true
  max_pages_per_domain : Nat := 3
  deriving Repr, DecidableEq

structure HttpResponse where
  status : Nat
  headers : List (String × String) := []
  body : String := ""
  deriving Repr, DecidableEq

structure FetchResult where
  url : String
  status : Nat
  html : Option String
  content_type : String
  content_bytes : Option String
  error : Option String
  response_headers : Option (List (String × String))
  deriving Repr, DecidableEq

namespace FetchClient

/-- Parse the `Retry-After` header the way `_do_fetch` does:
`float(retry_after) if retry_after and retry_after.isdigit() else None`. -/
def parse_retry_after (retry_after : Option String) : Option ℚ :=
  match retry_after with
  | none => none
  | some s =>
    if s ≠ "" ∧ isDigitStr s then some ((digitsToNat s : Nat) : ℚ)
    else none

/-- `_do_fetch`: one GET, with a single fingerprint-rotated retry on
403/429 while retries remain.  The source's `retry : bool` parameter is
encoded as the number of retries left (`True` = 1, `False` = 0).  Returns
`(result, throttler, GET count, fingerprints used per GET)`. -/
def do_fetch (oracle : Nat → Except String HttpResponse) (url domain : String) :
    Nat → Nat → DomainThrottler → BrowserFingerprint →
      FetchResult × DomainThrottler × Nat × List BrowserFingerprint
  | retries, n, st, fp =>
    match oracle n with
    | .error e =>
      ({ url := url, status := 0, html := none, content_type := ""
         content_bytes := none, error := some e, response_headers := none },
       st, 1, [fp])
    | .ok resp =>
      let ct := lowerStr ((alookup resp.headers "Content-Type").getD "")
      if resp.status = 200 then
        let st' := st.report_success domain
        if contains_sub ct "application/pdf" || endsWithStr (lowerStr url) ".pdf" then
          ({ url := url, status := 200, html := none, content_type := ct
             content_bytes := some resp.body, error := none
             response_headers := some resp.headers }, st', 1, [fp])
        else
          ({ url := url, status := 200, html := some resp.body, content_type := ct
             content_bytes := none, error := none
             response_headers := some resp.headers }, st', 1, [fp])
      else if resp.status = 403 ∨ resp.status = 429 then
        let ra_val := parse_retry_after (alookup resp.headers "Retry-After")
        let st' := st.report_failure domain resp.status ra_val
        match retries with
        | rLeft + 1 =>
          let idx := (ALL_FINGERPRINTS.indexOf fp + 1) % ALL_FINGERPRINTS.length
          let new_fp := ALL_FINGERPRINTS.getD idx CHROME_WINDOWS
          let r := do_fetch oracle url domain rLeft (n + 1) st' new_fp
          (r.1, r.2.1, 1 + r.2.2.1, fp :: r.2.2.2)
        | 0 =>
          ({ url := url, status := resp.status, html := none, content_type := ct
             content_bytes := none, error := some ("HTTP " ++ toString resp.status)
             response_headers := some resp.headers }, st', 1, [fp])
      else
        ({ url := url, status := resp.status, html := none, content_type := ct
           content_bytes := none, error := some ("HTTP " ++ toString resp.status)
           response_headers := some resp.headers }, st, 1, [fp])

theorem do_fetch_retries_zero (oracle : Nat → Except String HttpResponse)
    (url domain : String) (n : Nat) (st : DomainThrottler)
    (fp : BrowserFingerprint) :
    (do_fetch oracle url domain 0 n st fp).2.2.1 = 1 ∧
      (do_fetch oracle url domain 0 n st fp).2.2.2 = [fp] := by
  unfold do_fetch
  cases h : oracle n with
  | error e => simp
  | ok resp =>
    dsimp only
    split_ifs <;> simp

theorem do_fetch_requests_le (oracle : Nat → Except String HttpResponse)
    (url domain : String) (retries : Nat) :
    ∀ (n : Nat) (st : DomainThrottler) (fp : BrowserFingerprint),
      (do_fetch oracle url domain retries n st fp).2.2.1 ≤ retries + 1 := by
  induction retries with
  | zero =>
    intro n st fp
    rw [(do_fetch_retries_zero oracle url domain n st fp).1]
  | succ k ih =>
    intro n st fp
    unfold do_fetch
    cases h : oracle n with
    | error e => simp
    | ok resp =>
      dsimp only
      split_ifs
      · simp
      · simp
      · dsimp only
        rw [Nat.add_comm 1]
        exact Nat.succ_le_succ (ih _ _ _)
      · simp

theorem do_fetch_step_403_429 (oracle : Nat → Except String HttpResponse)
    (url domain : String) (rLeft n : Nat) (st : DomainThrottler)
    (fp : BrowserFingerprint) (r : HttpResponse) (h0 : oracle n = .ok r)
    (hs : r.status = 403 ∨ r.status = 429) :
    do_fetch oracle url domain (rLeft + 1) n st fp =
      ((do_fetch oracle url domain rLeft (n + 1)
          (st.report_failure domain r.status
            (parse_retry_after (alookup r.headers "Retry-After")))
          (ALL_FINGERPRINTS.getD
            ((ALL_FINGERPRINTS.indexOf fp + 1) % ALL_FINGERPRINTS.length)
            CHROME_WINDOWS)).1,
       (do_fetch oracle url domain rLeft (n + 1)
          (st.report_failure domain r.status
            (parse_retry_after (alookup r.headers "Retry-After")))
          (ALL_FINGERPRINTS.getD
            ((ALL_FINGERPRINTS.indexOf fp + 1) % ALL_FINGERPRINTS.length)
            CHROME_WINDOWS)).2.1,
       1 + (do_fetch oracle url domain rLeft (n + 1)
          (st.report_failure domain r.status
            (parse_retry_after (alookup r.headers "Retry-After")))
          (ALL_FINGERPRINTS.getD
            ((ALL_FINGERPRINTS.indexOf fp + 1) % ALL_FINGERPRINTS.length)
            CHROME_WINDOWS)).2.2.1,
       fp :: (do_fetch oracle url domain rLeft (n + 1)
          (st.report_failure domain r.status
            (parse_retry_after (alookup r.headers "Retry-After")))
          (ALL_FINGERPRINTS.getD
            ((ALL_FINGERPRINTS.indexOf fp + 1) % ALL_FINGERPRINTS.length)
            CHROME_WINDOWS)).2.2.2) := by
  have hne : ¬ r.status = 200 := by rcases hs with h | h <;> omega
  conv_lhs => rw [do_fetch]
  rw [h0]
  simp only [hne, if_false, hs, if_true, if_pos hs, if_neg hne]

theorem do_fetch_zero_403_429 (oracle : Nat → Except String HttpResponse)
    (url domain : String) (n : Nat) (st : DomainThrottler)
    (fp : BrowserFingerprint) (r : HttpResponse) (h0 : oracle n = .ok r)
    (hs : r.status = 403 ∨ r.status = 429) :
    do_fetch oracle url domain 0 n st fp =
      ({ url := url, status := r.status, html := none
         content_type := lowerStr ((alookup r.headers "Content-Type").getD "")
         content_bytes := none, error := some ("HTTP " ++ toString r.status)
         response_headers := some r.headers },
       st.report_failure domain r.status
         (parse_retry_after (alookup r.headers "Retry-After")),
       1, [fp]) := by
  have hne : ¬ r.status = 200 := by rcases hs with h | h <;> omega
  conv_lhs => rw [do_fetch]
  rw [h0]
  simp only [hne, if_false, hs, if_true, if_pos hs, if_neg hne]

/-- The observable effects of one `FetchClient.fetch` call. -/
structure FetchCall where
  result : FetchResult
  throttler : DomainThrottler
  robot_checker : RobotChecker
  url_requests : Nat
  fps_used : List BrowserFingerprint
  throttle_acquired : Bool

/-- `fetch`: robots check (when enabled) before fingerprint assignment,
throttle acquisition and the GET; on robots denial no GET of the URL is
performed and the throttler is untouched. -/
def fetch (cfg : ScraperConfig) (pyHash : String → Nat)
    (fetchRobots : String → Option RobotsParser)
    (oracle : Nat → Except String HttpResponse) (rc : RobotChecker)
    (st : DomainThrottler) (url : String) : FetchCall :=
  let domain := lowerStr (url_netloc url)
  let proceed := fun (rc' : RobotChecker) =>
    let fp := get_fingerprint_for_domain pyHash domain
    let r := do_fetch oracle url domain 1 0 st fp
    { result := r.1, throttler := r.2.1, robot_checker := rc'
      url_requests := r.2.2.1, fps_used := r.2.2.2, throttle_acquired := true }
  if cfg.respect_robots then
    let check := rc.is_allowed fetchRobots url
    if !check.1 then
      { result := { url := url, status := 0, html := none, content_type := ""
                    content_bytes := none, error := some "robots.txt disallowed"
                    response_headers := none }
        throttler := st, robot_checker := check.2, url_requests := 0
        fps_used := [], throttle_acquired := false }
    else proceed check.2
  else proceed rc

end FetchClient

/-! ## Link filtering (extract/links.py) and the crawl-enqueue loop
(pipeline.py, BFS depth loop)

`extract_links` (BeautifulSoup) is an external collaborator; the candidate
link list enters the model as data. -/

def ASSET_EXTENSIONS : List String :=
  [".jpg", ".jpeg", ".png", ".gif", ".svg", ".ico", ".webp", ".bmp",
   ".css", ".js", ".woff", ".woff2", ".ttf", ".eot",
   ".mp3", ".mp4", ".avi", ".mov", ".wmv", ".flv",
   ".zip", ".gz", ".tar", ".rar", ".7z",
   ".exe", ".dmg", ".msi"]

/-- `_base_domain`: last two dot-separated labels of the lowercased host. -/
def base_domain (hostname : String) : String :=
  let parts := splitOnStr (lowerStr hostname) "."
  if 2 ≤ parts.length then
    joinStr "." (parts.drop (parts.length - 2))
  else lowerStr hostname

/-- The per-link keep condition of `filter_links_same_domain`'s loop. -/
def link_passes (source_base : String) (exclusions seen_urls : List String)
    (domain_page_counts : List (String × Nat)) (max_pages_per_domain : Nat)
    (url : String) : Bool :=
  let hostname := lowerStr (url_netloc url)
  let link_base := base_domain hostname
  if link_base ≠ source_base then false
  else
    let domain_clean := (splitOnStr (replaceStr hostname "www." "") ":").headD ""
    if domain_clean ∈ exclusions then false
    else if url ∈ seen_urls then false
    else if max_pages_per_domain ≤ (alookup domain_page_counts hostname).getD 0 then false
    else if ASSET_EXTENSIONS.any (fun ext => endsWithStr (lowerStr (url_path url)) ext) then false
    else true

/-- `filter_links_same_domain`: keep same-base-domain links, applying the
exclusion list, the already-seen set and the per-domain page cap. -/
def filter_links_same_domain (links : List String) (source_domain : String)
    (exclusions seen_urls : List String)
    (domain_page_counts : List (String × Nat)) (max_pages_per_domain : Nat) :
    List String :=
  links.filter
    (link_passes (base_domain source_domain) exclusions seen_urls
      domain_page_counts max_pages_per_domain)

theorem link_passes_true_iff (source_base : String)
    (exclusions seen_urls : List String)
    (domain_page_counts : List (String × Nat)) (max_pages_per_domain : Nat)
    (url : String) :
    link_passes source_base exclusions seen_urls domain_page_counts
        max_pages_per_domain url = true ↔
      (base_domain (lowerStr (url_netloc url)) = source_base ∧
        (splitOnStr (replaceStr (lowerStr (url_netloc url)) "www." "") ":").headD "" ∉ exclusions ∧
        url ∉ seen_urls ∧
        (alookup domain_page_counts (lowerStr (url_netloc url))).getD 0 < max_pages_per_domain ∧
        ∀ ext ∈ ASSET_EXTENSIONS, endsWithStr (lowerStr (url_path url)) ext = false) := by
  unfold link_passes
  split_ifs <;>
    simp_all [not_lt, List.any_eq_true, Nat.lt_iff_add_one_le]

namespace ScraperPipeline

/-- The link-enqueue loop of `ScraperPipeline.run`'s BFS depth stage:
skip links already fetched per Checkpoint or already deduplicated, stop
(`break`) once `next_depth_urls` holds `max_pages_per_domain` entries,
otherwise enqueue and mark seen.  (`url_to_query` bookkeeping does not
influence enqueueing and is omitted.)  Returns
`(next_depth_urls, all_seen_urls)`. -/
def enqueue_new_links (cp : Checkpoint) (dd : Deduplicator)
    (max_pages_per_domain : Nat) :
    List String → List String → List String → List String × List String
  | [], next_depth_urls, all_seen_urls => (next_depth_urls, all_seen_urls)
  | link :: rest, next_depth_urls, all_seen_urls =>
    if cp.is_url_fetched link then
      enqueue_new_links cp dd max_pages_per_domain rest next_depth_urls all_seen_urls
    else if dd.is_duplicate_url link then
      enqueue_new_links cp dd max_pages_per_domain rest next_depth_urls all_seen_urls
    else if max_pages_per_domain ≤ next_depth_urls.length then
      (next_depth_urls, all_seen_urls)
    else
      enqueue_new_links cp dd max_pages_per_domain rest
        (next_depth_urls ++ [link]) (all_seen_urls ++ [link])

/-- Links discovered on a fetched page that make it into the next depth's
frontier: `filter_links_same_domain` followed by the enqueue loop. -/
def next_depth_frontier (cp : Checkpoint) (dd : Deduplicator)
    (raw_links : List String) (source_domain : String)
    (exclusions all_seen_urls : List String)
    (domain_page_counts : List (String × Nat)) (max_pages_per_domain : Nat) :
    List String × List String :=
  let new_links := filter_links_same_domain raw_links source_domain exclusions
    all_seen_urls domain_page_counts max_pages_per_domain
  enqueue_new_links cp dd max_pages_per_domain new_links [] all_seen_urls

theorem mem_enqueue_new_links (cp : Checkpoint) (dd : Deduplicator) (m : Nat) :
    ∀ (ls next seen : List String) (link : String),
      link ∈ (enqueue_new_links cp dd m ls next seen).1 →
      link ∈ next ∨
        (link ∈ ls ∧ cp.is_url_fetched link = false ∧
          dd.is_duplicate_url link = false) := by
  intro ls
  induction ls with
  | nil => intro next seen link h; exact Or.inl h
  | cons hd tl ih =>
    intro next seen link h
    unfold enqueue_new_links at h
    by_cases h1 : cp.is_url_fetched hd
    · simp only [h1, if_true] at h
      rcases ih _ _ _ h with h' | h'
      · exact Or.inl h'
      · exact Or.inr ⟨List.mem_cons_of_mem _ h'.1, h'.2⟩
    · by_cases h2 : dd.is_duplicate_url hd
      · simp only [h1, h2, if_true, if_false, Bool.false_eq_true] at h
        rcases ih _ _ _ h with h' | h'
        · exact Or.inl h'
        · exact Or.inr ⟨List.mem_cons_of_mem _ h'.1, h'.2⟩
      · by_cases h3 : m ≤ next.length
        · simp only [h1, h2, h3, if_true, if_false, Bool.false_eq_true] at h
          exact Or.inl h
        · simp only [h1, h2, h3, if_true, if_false, Bool.false_eq_true] at h
          rcases ih _ _ _ h with h' | h'
          · rcases List.mem_append.mp h' with h'' | h''
            · exact Or.inl h''
            · simp only [List.mem_singleton] at h''
              subst h''
              exact Or.inr ⟨List.mem_cons_self _ _,
                Bool.not_eq_true _ ▸ by simpa using h1,
                Bool.not_eq_true _ ▸ by simpa using h2⟩
          · exact Or.inr ⟨List.mem_cons_of_mem _ h'.1, h'.2⟩

/-- The per-query loop of `ScraperPipeline.run` (step 6).  The search
collaborator and the per-unit body after a non-empty search (filtering, the
BFS fetch/extract loop and batch writing) are oracles that may raise
(`Except.error` carries the exception and the checkpoint state at the
raise).  The source wraps neither the `self._searcher.search(...)` call nor
the unit body in `try/except`, so a raise propagates out of `run`. -/
def run_queries {α : Type} (search : String → Except String (List α))
    (process : String → List α → Checkpoint → Except (String × Checkpoint) Checkpoint) :
    Checkpoint → List String → Except (String × Checkpoint) Checkpoint
  | cp, [] => .ok cp
  | cp, q :: rest =>
    if cp.is_query_done q then run_queries search process cp rest
    else
      match search q with
      | .error e => .error (e, cp)
      | .ok results =>
        if results.isEmpty then
          run_queries search process (cp.mark_query_done q) rest
        else
          match process q results cp with
          | .error ec => .error ec
          | .ok cp' => run_queries search process (cp'.mark_query_done q) rest

end ScraperPipeline

namespace CrawlPipeline

/-- The per-seed loop of `CrawlPipeline.run` (step 4).  Only the
`crawler.arun(...)` call is wrapped in `try/except`: on a raise the seed is
recorded via `mark_url_failed` and `mark_query_done` and the loop continues.
The rest of the body (`process`: extraction, filtering, writing) is not
wrapped, so a raise there propagates. -/
def run_seeds {β : Type} (arun : String → Except String β)
    (process : String → β → Checkpoint → Except (String × Checkpoint) Checkpoint)
    (is_excluded_domain : String → Bool) :
    Checkpoint → List String → Except (String × Checkpoint) Checkpoint
  | cp, [] => .ok cp
  | cp, seed :: rest =>
    if cp.is_query_done seed then
      run_seeds arun process is_excluded_domain cp rest
    else if is_excluded_domain seed then
      run_seeds arun process is_excluded_domain (cp.mark_query_done seed) rest
    else
      match arun seed with
      | .error _ =>
        run_seeds arun process is_excluded_domain
          ((cp.mark_url_failed seed).mark_query_done seed) rest
      | .ok results =>
        match process seed results cp with
        | .error ec => .error ec
        | .ok cp' =>
          run_seeds arun process is_excluded_domain (cp'.mark_query_done seed) rest

theorem completed_mark_query_done (cp : Checkpoint) (q : String) :
    (cp.mark_query_done q).completed_queries = insert q cp.completed_queries :=
  rfl

theorem completed_mark_url_failed (cp : Checkpoint) (u : String) :
    (cp.mark_url_failed u).completed_queries = cp.completed_queries :=
  rfl

/-- When the crawl call raises on every seed, `CrawlPipeline.run` still
completes, never loses previously completed units, and marks every seed
done. -/
theorem run_seeds_all_fail {β : Type} (arun : String → Except String β)
    (process : String → β → Checkpoint → Except (String × Checkpoint) Checkpoint)
    (excl : String → Bool) (h : ∀ s b, arun s ≠ .ok b) :
    ∀ (seeds : List String) (cp : Checkpoint),
      ∃ cp', run_seeds arun process excl cp seeds = .ok cp'
        ∧ cp.completed_queries ⊆ cp'.completed_queries
        ∧ ∀ s ∈ seeds, s ∈ cp'.completed_queries := by
  intro seeds
  induction seeds with
  | nil =>
    intro cp
    exact ⟨cp, rfl, Finset.Subset.refl _, by simp⟩
  | cons s rest ih =>
    intro cp
    by_cases hdone : cp.is_query_done s
    · obtain ⟨cp', heq, hsub, hall⟩ := ih cp
      refine ⟨cp', ?_, hsub, ?_⟩
      · unfold run_seeds
        rw [if_pos hdone]
        exact heq
      · intro t ht
        rcases List.mem_cons.mp ht with rfl | ht'
        · exact hsub (of_decide_eq_true hdone)
        · exact hall t ht'
    · by_cases hexcl : excl s
      · obtain ⟨cp', heq, hsub, hall⟩ := ih (cp.mark_query_done s)
        refine ⟨cp', ?_, ?_, ?_⟩
        · unfold run_seeds
          rw [if_neg hdone, if_pos hexcl]
          exact heq
        · exact Finset.Subset.trans
            (completed_mark_query_done cp s ▸ Finset.subset_insert s _) hsub
        · intro t ht
          rcases List.mem_cons.mp ht with rfl | ht'
          · exact hsub (by rw [completed_mark_query_done]; exact Finset.mem_insert_self t _)
          · exact hall t ht'
      · cases harun : arun s with
        | ok b => exact absurd harun (h s b)
        | error e =>
          obtain ⟨cp', heq, hsub, hall⟩ := ih ((cp.mark_url_failed s).mark_query_done s)
          refine ⟨cp', ?_, ?_, ?_⟩
          · unfold run_seeds
            rw [if_neg hdone, if_neg (by simp [hexcl]), harun]
            exact heq
          · refine Finset.Subset.trans ?_ hsub
            rw [completed_mark_query_done, completed_mark_url_failed]
            exact Finset.subset_insert s _
          · intro t ht
            rcases List.mem_cons.mp ht with rfl | ht'
            · exact hsub (by
                rw [completed_mark_query_done, completed_mark_url_failed]
                exact Finset.mem_insert_self t _)
            · exact hall t ht'

end CrawlPipeline

/-! ## Claim theorems -/

/-- C1, counterexample.  In `ScraperPipeline.run` the per-query body has no
`try/except`: a raising `self._searcher.search(...)` (e.g. the
`from duckduckgo_search.exceptions import ...` at the top of
`_do_search_with_retry` when only the `ddgs` fallback package is installed)
propagates, aborting the run — the raising unit is not marked done and the
remaining units are never processed, contradicting the claim that the run
always completes with every processed unit marked. -/
theorem claim_C1_counterexample :
    (ScraperPipeline.run_queries (α := Unit) (fun _ => .error "search raised")
        (fun _ _ cp => .ok cp) (Checkpoint.init "checkpoint.json")
        ["query one", "query two"]
      = .error ("search raised", Checkpoint.init "checkpoint.json"))
    ∧ ((Checkpoint.init "checkpoint.json").is_query_done "query one" = false) := by
  constructor
  · rfl
  · decide

/-- C1, amended: only the crawl pipeline's `crawler.arun` call is guarded —
a seed whose crawl call raises is recorded (`mark_url_failed`) and marked
done, and the loop continues (so a run whose every crawl call raises still
completes with all seeds marked done); in the search pipeline, an exception
from the search call aborts the run with the raising unit unmarked. -/
theorem claim_C1_amended (α β : Type) :
    (∀ (arun : String → Except String β)
        (process : String → β → Checkpoint → Except (String × Checkpoint) Checkpoint)
        (excl : String → Bool) (cp : Checkpoint) (seed : String)
        (rest : List String) (e : String),
        cp.is_query_done seed = false → excl seed = false →
        arun seed = .error e →
        CrawlPipeline.run_seeds arun process excl cp (seed :: rest)
          = CrawlPipeline.run_seeds arun process excl
              ((cp.mark_url_failed seed).mark_query_done seed) rest
        ∧ ((cp.mark_url_failed seed).mark_query_done seed).is_query_done seed = true)
    ∧ (∀ (arun : String → Except String β)
        (process : String → β → Checkpoint → Except (String × Checkpoint) Checkpoint)
        (excl : String → Bool) (cp : Checkpoint) (seeds : List String),
        (∀ s b, arun s ≠ .ok b) →
        ∃ cp', CrawlPipeline.run_seeds arun process excl cp seeds = .ok cp'
          ∧ ∀ s ∈ seeds, cp'.is_query_done s = true)
    ∧ (∀ (search : String → Except String (List α))
        (process : String → List α → Checkpoint → Except (String × Checkpoint) Checkpoint)
        (cp : Checkpoint) (q : String) (rest : List String) (e : String),
        cp.is_query_done q = false → search q = .error e →
        ScraperPipeline.run_queries search process cp (q :: rest) = .error (e, cp)) := by
  refine ⟨?_, ?_, ?_⟩
  · intro arun process excl cp seed rest e hdone hexcl harun
    constructor
    · conv_lhs => rw [CrawlPipeline.run_seeds]
      rw [hdone, hexcl, harun]
      simp only [Bool.false_eq_true, if_false]
    · simp [Checkpoint.is_query_done, Checkpoint.mark_query_done,
        Checkpoint.mark_url_failed]
  · intro arun process excl cp seeds h
    obtain ⟨cp', heq, -, hall⟩ :=
      CrawlPipeline.run_seeds_all_fail arun process excl h seeds cp
    exact ⟨cp', heq, fun s hs => decide_eq_true (hall s hs)⟩
  · intro search process cp q rest e hdone hsearch
    conv_lhs => rw [ScraperPipeline.run_queries]
    rw [hdone, hsearch]
    simp only [Bool.false_eq_true, if_false]

/-- Witness for C1 (amended) on concrete runs: a crawl run whose only seed's
crawl call raises completes with the seed marked done; a search run whose
first query's search call raises aborts. -/
theorem claim_C1_amended_witness :
    (CrawlPipeline.run_seeds (β := Unit) (fun _ => .error "boom")
        (fun _ _ cp => .ok cp) (fun _ => false) (Checkpoint.init "c.json")
        ["https://seed.example/"]
      = .ok (((Checkpoint.init "c.json").mark_url_failed
          "https://seed.example/").mark_query_done "https://seed.example/"))
    ∧ ((((Checkpoint.init "c.json").mark_url_failed
          "https://seed.example/").mark_query_done
          "https://seed.example/").is_query_done "https://seed.example/" = true)
    ∧ (ScraperPipeline.run_queries (α := Unit) (fun _ => .error "boom")
        (fun _ _ cp => .ok cp) (Checkpoint.init "c.json") ["query one"]
      = .error ("boom", Checkpoint.init "c.json")) := by
  have h := claim_C1_amended Unit Unit
  have ha := h.1 (fun _ => .error "boom") (fun _ _ cp => .ok cp) (fun _ => false)
    (Checkpoint.init "c.json") "https://seed.example/" [] "boom"
    (by decide) rfl rfl
  exact ⟨ha.1, ha.2,
    h.2.2 (fun _ => .error "boom") (fun _ _ cp => .ok cp)
      (Checkpoint.init "c.json") "query one" [] "boom" (by decide) rfl⟩

/-- C3, counterexample.  The claim states that `report_failure(domain, 403)`
multiplies the current extra-delay by 1.5 (capped); but on a domain whose
stored delay is `0.0` (reachable via `report_failure(429, retry_after=0)`)
the code's `or 1.0` floor replaces the current delay by `1.0`, so the 403
result is `1.5`, not `0 * 1.5 = 0`. -/
theorem claim_C3_counterexample :
    ((({} : DomainThrottler).report_failure "ex.com" 429 (some 0)).get_delay "ex.com" = 0)
    ∧ (((({} : DomainThrottler).report_failure "ex.com" 429 (some 0)).report_failure
          "ex.com" 403 none).get_delay "ex.com" = 3 / 2)
    ∧ ¬ ((((({} : DomainThrottler).report_failure "ex.com" 429 (some 0)).report_failure
          "ex.com" 403 none).get_delay "ex.com")
        = min (((({} : DomainThrottler).report_failure "ex.com" 429 (some 0)).get_delay
            "ex.com") * (3 / 2))
            ((({} : DomainThrottler).report_failure "ex.com" 429 (some 0)).max_delay)) := by
  have h0 : (({} : DomainThrottler).report_failure "ex.com" 429 (some 0)).get_delay "ex.com"
      = 0 := by
    rw [DomainThrottler.get_delay_report_failure_429_some]
    norm_num [DomainThrottler.max_delay]
  have hM : (({} : DomainThrottler).report_failure "ex.com" 429 (some 0)).max_delay = 30 :=
    DomainThrottler.max_delay_report_failure _ _ _ _
  have h1 : ((({} : DomainThrottler).report_failure "ex.com" 429 (some 0)).report_failure
      "ex.com" 403 none).get_delay "ex.com" = 3 / 2 := by
    rw [DomainThrottler.get_delay_report_failure_403, h0, hM]
    norm_num [DomainThrottler.floor1]
  refine ⟨h0, h1, ?_⟩
  rw [h0, h1, hM]
  norm_num

/-- C3, amended: `report_failure(domain, 429, retry_after)` sets the
extra-delay to `min(retry_after, max_delay)` when `retry_after` is given and
otherwise doubles the current delay (1.0s floor if previously zero), capped;
403 multiplies the current delay by 1.5 and 5xx by 1.25, both **starting from
the same 1.0s floor if previously zero** and capped; `report_success` halves
with floor 0; repeated no-`retry_after` 429 failures double each time
saturating at `max_delay`, and repeated successes halve each time toward 0. -/
theorem claim_C3_amended (st : DomainThrottler) (d : String) :
    (∀ ra : ℚ, (st.report_failure d 429 (some ra)).get_delay d = min ra st.max_delay)
    ∧ ((st.report_failure d 429 none).get_delay d
        = min (DomainThrottler.floor1 (st.get_delay d) * 2) st.max_delay)
    ∧ (∀ ra, (st.report_failure d 403 ra).get_delay d
        = min (DomainThrottler.floor1 (st.get_delay d) * (3 / 2)) st.max_delay)
    ∧ (∀ status ra, 500 ≤ status →
        (st.report_failure d status ra).get_delay d
          = min (DomainThrottler.floor1 (st.get_delay d) * (5 / 4)) st.max_delay)
    ∧ ((st.report_success d).get_delay d = max 0 (st.get_delay d / 2))
    ∧ (1 ≤ st.get_delay d → st.get_delay d ≤ st.max_delay →
        ∀ n, (st.iterate_fail429 d n).get_delay d
          = min (st.get_delay d * 2 ^ n) st.max_delay)
    ∧ (0 ≤ st.get_delay d →
        ∀ n, (st.iterate_success d n).get_delay d = st.get_delay d / 2 ^ n) := by
  refine ⟨?_, ?_, ?_, ?_, ?_, ?_, ?_⟩
  · intro ra
    exact DomainThrottler.get_delay_report_failure_429_some st d ra
  · exact DomainThrottler.get_delay_report_failure_429_none st d
  · intro ra
    exact DomainThrottler.get_delay_report_failure_403 st d ra
  · intro status ra h5
    exact DomainThrottler.get_delay_report_failure_5xx st d status ra h5
      (by omega) (by omega)
  · exact DomainThrottler.get_delay_report_success_self st d
  · intro h1 h2 n
    exact DomainThrottler.get_delay_iterate_fail429 st d h1 h2 n
  · intro hx n
    exact DomainThrottler.get_delay_iterate_success st d hx n

/-- Witness for C3 (amended): concrete evaluations at a domain whose stored
delay is 4 with the default `max_delay = 30`. -/
theorem claim_C3_amended_witness :
    (({ extra_delays := [("d.com", 4)] } : DomainThrottler).iterate_fail429 "d.com" 3).get_delay
        "d.com" = 30
    ∧ (({ extra_delays := [("d.com", 4)] } : DomainThrottler).iterate_success "d.com" 2).get_delay
        "d.com" = 1
    ∧ (({ extra_delays := [("d.com", 4)] } : DomainThrottler).report_failure "d.com" 503
        none).get_delay "d.com" = 5 := by
  have hd : ({ extra_delays := [("d.com", 4)] } : DomainThrottler).get_delay "d.com" = 4 := by
    simp [DomainThrottler.get_delay, alookup]
  have h := claim_C3_amended ({ extra_delays := [("d.com", 4)] } : DomainThrottler) "d.com"
  obtain ⟨-, -, -, h5xx, -, hfail, hsucc⟩ := h
  refine ⟨?_, ?_, ?_⟩
  · rw [hfail (by rw [hd]; norm_num) (by rw [hd]; norm_num [DomainThrottler.max_delay]) 3, hd]
    norm_num [DomainThrottler.max_delay]
  · rw [hsucc (by rw [hd]; norm_num) 2, hd]
    norm_num
  · rw [h5xx 503 none (by norm_num), hd]
    norm_num [DomainThrottler.floor1, DomainThrottler.max_delay]

/-- C2: when the first GET of a URL returns 403 or 429, `_do_fetch` (as
invoked by `fetch`, with the profile deterministically assigned to the URL's
domain and one retry) performs exactly two GETs, the second with the next
fingerprint in rotation; if the second GET also returns 403/429 the failed
outcome (`HTTP <status>`) is returned with no third attempt; and every
logical fetch performs at most two GETs of the URL whatever the oracle. -/
theorem claim_C2 (oracle : Nat → Except String HttpResponse)
    (pyHash : String → Nat) (st : DomainThrottler) (url : String)
    (r1 : HttpResponse) (h0 : oracle 0 = .ok r1)
    (hs : r1.status = 403 ∨ r1.status = 429) :
    ((FetchClient.do_fetch oracle url (lowerStr (url_netloc url)) 1 0 st
        (get_fingerprint_for_domain pyHash (lowerStr (url_netloc url)))).2.2.1 = 2)
    ∧ ((FetchClient.do_fetch oracle url (lowerStr (url_netloc url)) 1 0 st
        (get_fingerprint_for_domain pyHash (lowerStr (url_netloc url)))).2.2.2
      = [get_fingerprint_for_domain pyHash (lowerStr (url_netloc url)),
         ALL_FINGERPRINTS.getD
           ((pyHash (lowerStr (url_netloc url)) % ALL_FINGERPRINTS.length + 1)
             % ALL_FINGERPRINTS.length) CHROME_WINDOWS])
    ∧ (∀ r2 : HttpResponse, oracle 1 = .ok r2 →
        r2.status = 403 ∨ r2.status = 429 →
        (FetchClient.do_fetch oracle url (lowerStr (url_netloc url)) 1 0 st
            (get_fingerprint_for_domain pyHash (lowerStr (url_netloc url)))).1.status
          = r2.status ∧
        (FetchClient.do_fetch oracle url (lowerStr (url_netloc url)) 1 0 st
            (get_fingerprint_for_domain pyHash (lowerStr (url_netloc url)))).1.error
          = some ("HTTP " ++ toString r2.status))
    ∧ (∀ (oracle' : Nat → Except String HttpResponse) (url' domain' : String)
        (n' : Nat) (st' : DomainThrottler) (fp' : BrowserFingerprint),
        (FetchClient.do_fetch oracle' url' domain' 1 n' st' fp').2.2.1 ≤ 2) := by
  have hstep := FetchClient.do_fetch_step_403_429 oracle url
    (lowerStr (url_netloc url)) 0 0 st
    (get_fingerprint_for_domain pyHash (lowerStr (url_netloc url))) r1 h0 hs
  have hfp : ALL_FINGERPRINTS.indexOf
      (get_fingerprint_for_domain pyHash (lowerStr (url_netloc url)))
        = pyHash (lowerStr (url_netloc url)) % ALL_FINGERPRINTS.length :=
    indexOf_get_fingerprint pyHash (lowerStr (url_netloc url))
  refine ⟨?_, ?_, ?_, ?_⟩
  · rw [hstep]
    have hz := FetchClient.do_fetch_retries_zero oracle url
      (lowerStr (url_netloc url)) 1
      (st.report_failure (lowerStr (url_netloc url)) r1.status
        (FetchClient.parse_retry_after (alookup r1.headers "Retry-After")))
      (ALL_FINGERPRINTS.getD
        ((ALL_FINGERPRINTS.indexOf
            (get_fingerprint_for_domain pyHash (lowerStr (url_netloc url))) + 1)
          % ALL_FINGERPRINTS.length) CHROME_WINDOWS)
    rw [hz.1]
  · rw [hstep]
    have hz := FetchClient.do_fetch_retries_zero oracle url
      (lowerStr (url_netloc url)) 1
      (st.report_failure (lowerStr (url_netloc url)) r1.status
        (FetchClient.parse_retry_after (alookup r1.headers "Retry-After")))
      (ALL_FINGERPRINTS.getD
        ((ALL_FINGERPRINTS.indexOf
            (get_fingerprint_for_domain pyHash (lowerStr (url_netloc url))) + 1)
          % ALL_FINGERPRINTS.length) CHROME_WINDOWS)
    rw [hz.2, hfp]
  · intro r2 h1 hs2
    rw [hstep,
      FetchClient.do_fetch_zero_403_429 oracle url (lowerStr (url_netloc url)) 1 _ _
        r2 h1 hs2]
    exact ⟨rfl, rfl⟩
  · intro oracle' url' domain' n' st' fp'
    exact FetchClient.do_fetch_requests_le oracle' url' domain' 1 n' st' fp'

/-- Witness for C2: both GETs return 403 on a concrete URL; the assigned
profile (`pyHash = 0`) is Chrome/Windows, the retry uses Chrome/macOS, and
the final outcome is the 403 failure after exactly two GETs. -/
theorem claim_C2_witness :
    ((FetchClient.do_fetch (fun _ => .ok { status := 403 }) "https://x.com/a"
        (lowerStr (url_netloc "https://x.com/a")) 1 0 {}
        (get_fingerprint_for_domain (fun _ => 0)
          (lowerStr (url_netloc "https://x.com/a")))).2.2.1 = 2)
    ∧ ((FetchClient.do_fetch (fun _ => .ok { status := 403 }) "https://x.com/a"
        (lowerStr (url_netloc "https://x.com/a")) 1 0 {}
        (get_fingerprint_for_domain (fun _ => 0)
          (lowerStr (url_netloc "https://x.com/a")))).2.2.2
      = [CHROME_WINDOWS, CHROME_MAC])
    ∧ ((FetchClient.do_fetch (fun _ => .ok { status := 403 }) "https://x.com/a"
        (lowerStr (url_netloc "https://x.com/a")) 1 0 {}
        (get_fingerprint_for_domain (fun _ => 0)
          (lowerStr (url_netloc "https://x.com/a")))).1.error
      = some "HTTP 403") := by
  have h := claim_C2 (fun _ => .ok { status := 403 }) (fun _ => 0) {}
    "https://x.com/a" { status := 403 } rfl (Or.inl rfl)
  refine ⟨h.1, ?_, ?_⟩
  · rw [h.2.1]
    decide
  · exact ((h.2.2.1 { status := 403 } rfl (Or.inl rfl)).2.trans (by decide))

/-- C4: when robots compliance is enabled and the origin's robots.txt
(successfully fetched and parsed) disallows the URL, `is_allowed` returns
false and `fetch` returns the typed `robots.txt disallowed` outcome with
status 0, zero GETs of the URL, no throttle acquisition and the throttler
unchanged. -/
theorem claim_C4 (cfg : ScraperConfig) (pyHash : String → Nat)
    (fetchRobots : String → Option RobotsParser)
    (oracle : Nat → Except String HttpResponse) (st : DomainThrottler)
    (url ua : String) (p : RobotsParser)
    (hr : cfg.respect_robots = true)
    (hf : fetchRobots (url_scheme url ++ "://" ++ url_netloc url) = some p)
    (hd : p.can_fetch ua url = some false) :
    ((RobotChecker.is_allowed ⟨[], ua⟩ fetchRobots url).1 = false)
    ∧ ((FetchClient.fetch cfg pyHash fetchRobots oracle ⟨[], ua⟩ st url).result.error
        = some "robots.txt disallowed")
    ∧ ((FetchClient.fetch cfg pyHash fetchRobots oracle ⟨[], ua⟩ st url).result.status = 0)
    ∧ ((FetchClient.fetch cfg pyHash fetchRobots oracle ⟨[], ua⟩ st url).url_requests = 0)
    ∧ ((FetchClient.fetch cfg pyHash fetchRobots oracle ⟨[], ua⟩ st url).throttle_acquired
        = false)
    ∧ ((FetchClient.fetch cfg pyHash fetchRobots oracle ⟨[], ua⟩ st url).throttler = st) := by
  have hallow : (RobotChecker.is_allowed ⟨[], ua⟩ fetchRobots url).1 = false := by
    unfold RobotChecker.is_allowed
    simp [alookup, aset, hf, hd]
  refine ⟨hallow, ?_, ?_, ?_, ?_, ?_⟩ <;>
  · unfold FetchClient.fetch
    rw [hr]
    simp only [if_true, hallow, Bool.not_false, if_pos]

/-- Witness for C4: `x.com/robots.txt` yields a parser denying
`https://x.com/private`; no GET of the URL happens. -/
theorem claim_C4_witness :
    ((RobotChecker.is_allowed ⟨[], "Mozilla/5.0"⟩
        (fun _ => some ⟨fun _ _ => some false⟩) "https://x.com/private").1 = false)
    ∧ ((FetchClient.fetch {} (fun _ => 0) (fun _ => some ⟨fun _ _ => some false⟩)
        (fun _ => .ok { status := 200 }) ⟨[], "Mozilla/5.0"⟩ {}
        "https://x.com/private").result.error = some "robots.txt disallowed")
    ∧ ((FetchClient.fetch {} (fun _ => 0) (fun _ => some ⟨fun _ _ => some false⟩)
        (fun _ => .ok { status := 200 }) ⟨[], "Mozilla/5.0"⟩ {}
        "https://x.com/private").url_requests = 0) := by
  have h := claim_C4 {} (fun _ => 0) (fun _ => some ⟨fun _ _ => some false⟩)
    (fun _ => .ok { status := 200 }) {} "https://x.com/private" "Mozilla/5.0"
    ⟨fun _ _ => some false⟩ rfl rfl rfl
  exact ⟨h.1, h.2.1, h.2.2.2.1⟩

/-- C5: the Deduplicator's URL identity is the normalized form (lowercased,
fragment stripped, trailing slashes stripped); the three spec URLs share one
identity, and `mark_seen` on any of them makes `is_duplicate_url` true for
all three, over any prior state and content. -/
theorem claim_C5 :
    (Deduplicator.normalize_url "https://EX.com/a/" = "https://ex.com/a"
      ∧ Deduplicator.normalize_url "https://ex.com/a#x" = "https://ex.com/a"
      ∧ Deduplicator.normalize_url "https://ex.com/a" = "https://ex.com/a")
    ∧ (∀ (dd : Deduplicator) (url : String),
        dd.is_duplicate_url url
          = decide (Deduplicator.normalize_url url ∈ dd.seen_urls))
    ∧ (∀ (dd : Deduplicator) (content u1 u2 : String),
        u1 ∈ ["https://EX.com/a/", "https://ex.com/a#x", "https://ex.com/a"] →
        u2 ∈ ["https://EX.com/a/", "https://ex.com/a#x", "https://ex.com/a"] →
        (dd.mark_seen u1 content).is_duplicate_url u2 = true) := by
  refine ⟨⟨by decide, by decide, by decide⟩, ?_, ?_⟩
  · intro dd url
    rfl
  · intro dd content u1 u2 hu1 hu2
    fin_cases hu1 <;> fin_cases hu2 <;>
      exact Deduplicator.is_duplicate_url_mark_seen_of_hash_eq dd content _ _ (by decide)

/-- Witness for C5's quantified parts at a concrete state. -/
theorem claim_C5_witness :
    (Deduplicator.mark_seen {} "https://EX.com/a/" "some text").is_duplicate_url
      "https://ex.com/a#x" = true :=
  claim_C5.2.2 {} "some text" "https://EX.com/a/" "https://ex.com/a#x"
    (by decide) (by decide)

/-- C6: after `mark_seen(url, t1)` with non-empty `t1`, any non-empty `t2`
agreeing with `t1` on the first 2000 characters is reported as duplicate
content (exact content identity is the hash of the first 2000 characters),
for any LSH oracle and any prior state. -/
theorem claim_C6 (lshQuery : List String → String → Bool) (dd : Deduplicator)
    (url t1 t2 : String) (h1 : t1 ≠ "") (_h2 : t2 ≠ "")
    (hpre : takeStr t1 2000 = takeStr t2 2000) :
    Deduplicator.is_duplicate_content lshQuery (dd.mark_seen url t1) t2 = true := by
  have hmem : Deduplicator.hash_content t2 ∈ (dd.mark_seen url t1).seen_content := by
    rw [Deduplicator.seen_content_mark_seen dd url t1 h1]
    unfold Deduplicator.hash_content
    rw [← hpre]
    exact Deduplicator.mem_insertSet_self _ _
  unfold Deduplicator.is_duplicate_content
  rw [if_pos hmem]

/-- Witness for C6 at concrete strings. -/
theorem claim_C6_witness :
    Deduplicator.is_duplicate_content (fun _ _ => false)
      (Deduplicator.mark_seen {} "https://ex.com/a" "abc") "abc" = true :=
  claim_C6 (fun _ _ => false) {} "https://ex.com/a" "abc" "abc"
    (by decide) (by decide) rfl

/-- C7: `save` then `load` into a fresh `Checkpoint` reproduces
`is_query_done`, `is_url_fetched` and the per-URL failure counts /
`should_retry` for every state; in particular for the state with 2 completed
units, 3 fetched URLs and one URL failed twice. -/
theorem claim_C7 (cp : Checkpoint) (fresh_path q u : String) (m : Nat) :
    ((Checkpoint.load (Checkpoint.save cp) (Checkpoint.init fresh_path)).is_query_done q
        = cp.is_query_done q)
    ∧ ((Checkpoint.load (Checkpoint.save cp) (Checkpoint.init fresh_path)).is_url_fetched u
        = cp.is_url_fetched u)
    ∧ ((Checkpoint.load (Checkpoint.save cp) (Checkpoint.init fresh_path)).failed_urls
        = cp.failed_urls)
    ∧ ((Checkpoint.load (Checkpoint.save cp) (Checkpoint.init fresh_path)).should_retry u m
        = cp.should_retry u m) := by
  refine ⟨?_, ?_, rfl, rfl⟩
  · unfold Checkpoint.is_query_done
    rw [Checkpoint.load_save_completed]
  · unfold Checkpoint.is_url_fetched
    rw [Checkpoint.load_save_fetched]

/-- Witness for C7: the spec's concrete scenario — 2 completed units, 3
fetched URLs, one URL failed twice — observed identically after the
round-trip. -/
theorem claim_C7_witness :
    ((Checkpoint.load
        (Checkpoint.save ((((((((Checkpoint.init "c.json").mark_query_done
          "q1").mark_query_done "q2").mark_url_fetched "u1").mark_url_fetched
          "u2").mark_url_fetched "u3").mark_url_failed "f1").mark_url_failed "f1"))
        (Checkpoint.init "fresh.json")).is_query_done "q1" = true)
    ∧ ((Checkpoint.load
        (Checkpoint.save ((((((((Checkpoint.init "c.json").mark_query_done
          "q1").mark_query_done "q2").mark_url_fetched "u1").mark_url_fetched
          "u2").mark_url_fetched "u3").mark_url_failed "f1").mark_url_failed "f1"))
        (Checkpoint.init "fresh.json")).is_query_done "q3" = false)
    ∧ ((Checkpoint.load
        (Checkpoint.save ((((((((Checkpoint.init "c.json").mark_query_done
          "q1").mark_query_done "q2").mark_url_fetched "u1").mark_url_fetched
          "u2").mark_url_fetched "u3").mark_url_failed "f1").mark_url_failed "f1"))
        (Checkpoint.init "fresh.json")).is_url_fetched "u2" = true)
    ∧ ((Checkpoint.load
        (Checkpoint.save ((((((((Checkpoint.init "c.json").mark_query_done
          "q1").mark_query_done "q2").mark_url_fetched "u1").mark_url_fetched
          "u2").mark_url_fetched "u3").mark_url_failed "f1").mark_url_failed "f1"))
        (Checkpoint.init "fresh.json")).failed_urls = [("f1", 2)])
    ∧ ((Checkpoint.load
        (Checkpoint.save ((((((((Checkpoint.init "c.json").mark_query_done
          "q1").mark_query_done "q2").mark_url_fetched "u1").mark_url_fetched
          "u2").mark_url_fetched "u3").mark_url_failed "f1").mark_url_failed "f1"))
        (Checkpoint.init "fresh.json")).should_retry "f1" 2 = false) := by
  have hC := fun q u m => claim_C7
    ((((((((Checkpoint.init "c.json").mark_query_done
      "q1").mark_query_done "q2").mark_url_fetched "u1").mark_url_fetched
      "u2").mark_url_fetched "u3").mark_url_failed "f1").mark_url_failed "f1")
    "fresh.json" q u m
  refine ⟨?_, ?_, ?_, ?_, ?_⟩
  · rw [(hC "q1" "u1" 3).1]
    decide
  · rw [(hC "q3" "u1" 3).1]
    decide
  · rw [(hC "q1" "u2" 3).2.1]
    decide
  · rw [(hC "q1" "u1" 3).2.2.1]
    decide
  · rw [(hC "q1" "f1" 2).2.2.2]
    decide

/-- C8: a discovered link is enqueued into the next depth's frontier only if
it survives the same-base-domain check, the exclusion list, the seen-URL
set, the per-domain page cap, the asset-extension filter, and the
Checkpoint/Dedup membership checks; and in the concrete scenario of five
same-domain links with the domain's page count already at the cap of 3,
zero links are enqueued. -/
theorem claim_C8 :
    (∀ (cp : Checkpoint) (dd : Deduplicator) (raw_links : List String)
        (source_domain : String) (exclusions all_seen : List String)
        (counts : List (String × Nat)) (maxp : Nat) (link : String),
      link ∈ (ScraperPipeline.next_depth_frontier cp dd raw_links source_domain
          exclusions all_seen counts maxp).1 →
      link ∈ raw_links
        ∧ cp.is_url_fetched link = false
        ∧ dd.is_duplicate_url link = false
        ∧ base_domain (lowerStr (url_netloc link)) = base_domain source_domain
        ∧ (splitOnStr (replaceStr (lowerStr (url_netloc link)) "www." "") ":").headD ""
            ∉ exclusions
        ∧ link ∉ all_seen
        ∧ (alookup counts (lowerStr (url_netloc link))).getD 0 < maxp
        ∧ ∀ ext ∈ ASSET_EXTENSIONS, endsWithStr (lowerStr (url_path link)) ext = false)
    ∧ ((ScraperPipeline.next_depth_frontier (Checkpoint.init "c.json") {}
        ["https://ex.com/p1", "https://ex.com/p2", "https://ex.com/p3",
         "https://ex.com/p4", "https://ex.com/p5"]
        "ex.com" [] [] [("ex.com", 3)] 3).1 = []) := by
  constructor
  · intro cp dd raw_links source_domain exclusions all_seen counts maxp link h
    unfold ScraperPipeline.next_depth_frontier at h
    rcases ScraperPipeline.mem_enqueue_new_links cp dd maxp _ _ _ _ h with h' | h'
    · exact absurd h' (List.not_mem_nil link)
    · obtain ⟨hmem, hcf, hcd⟩ := h'
      obtain ⟨hraw, hpass⟩ := List.mem_filter.mp hmem
      obtain ⟨hbase, hexcl, hseen, hcap, hassets⟩ :=
        (link_passes_true_iff (base_domain source_domain) exclusions all_seen
          counts maxp link).mp hpass
      exact ⟨hraw, hcf, hcd, hbase, hexcl, hseen, hcap, hassets⟩
  · decide

/-- Witness for C8's quantified part at a concrete input where a link is
enqueued (domain count below the cap). -/
theorem claim_C8_witness :
    ("https://ex.com/p1"
        ∈ (ScraperPipeline.next_depth_frontier (Checkpoint.init "c.json") {}
            ["https://ex.com/p1"] "ex.com" [] [] [] 3).1)
    ∧ ("https://ex.com/p1" ∈ (["https://ex.com/p1"] : List String)
        ∧ (Checkpoint.init "c.json").is_url_fetched "https://ex.com/p1" = false
        ∧ ({} : Deduplicator).is_duplicate_url "https://ex.com/p1" = false
        ∧ base_domain (lowerStr (url_netloc "https://ex.com/p1")) = base_domain "ex.com"
        ∧ (splitOnStr (replaceStr (lowerStr (url_netloc "https://ex.com/p1")) "www." "")
            ":").headD "" ∉ ([] : List String)
        ∧ "https://ex.com/p1" ∉ ([] : List String)
        ∧ (alookup ([] : List (String × Nat)) (lowerStr (url_netloc "https://ex.com/p1"))).getD 0 < 3
        ∧ ∀ ext ∈ ASSET_EXTENSIONS,
            endsWithStr (lowerStr (url_path "https://ex.com/p1")) ext = false) := by
  have hmem : "https://ex.com/p1"
      ∈ (ScraperPipeline.next_depth_frontier (Checkpoint.init "c.json") {}
          ["https://ex.com/p1"] "ex.com" [] [] [] 3).1 := by decide
  exact ⟨hmem, claim_C8.1 (Checkpoint.init "c.json") {} ["https://ex.com/p1"]
    "ex.com" [] [] [] 3 "https://ex.com/p1" hmem⟩

/-- C9: for every domain and every finite sequence of `report_success` /
`report_failure` calls (with `retry_after ≥ 0` whenever provided), the
pending extra-delay stays in `[0, max_delay]` after each call (every prefix
of a call sequence is itself a call sequence). -/
theorem claim_C9 (st : DomainThrottler) (ops : List ThrottleOp) (d : String)
    (hM : 0 ≤ st.max_delay)
    (hinit : ∀ d', 0 ≤ st.get_delay d' ∧ st.get_delay d' ≤ st.max_delay)
    (hv : ∀ op ∈ ops, op.valid) :
    0 ≤ (ThrottleOp.applyAll st ops).get_delay d ∧
      (ThrottleOp.applyAll st ops).get_delay d ≤ st.max_delay :=
  ThrottleOp.get_delay_applyAll_range ops st hv hM hinit d

/-- Witness for C9: a fresh throttler (default `max_delay = 30`) after a
429-without-retry-after, a 403 and a success report. -/
theorem claim_C9_witness :
    0 ≤ (ThrottleOp.applyAll ({} : DomainThrottler)
        [.failure "d.com" 429 none, .failure "d.com" 403 (some 2), .success "d.com"]).get_delay
        "d.com"
    ∧ (ThrottleOp.applyAll ({} : DomainThrottler)
        [.failure "d.com" 429 none, .failure "d.com" 403 (some 2), .success "d.com"]).get_delay
        "d.com" ≤ ({} : DomainThrottler).max_delay := by
  refine claim_C9 {} _ "d.com" (by norm_num [DomainThrottler.max_delay]) ?_ ?_
  · intro d'
    simp [DomainThrottler.get_delay, alookup, DomainThrottler.max_delay]
  · intro op hop
    fin_cases hop <;> simp [ThrottleOp.valid]

/-- C10: `report_failure` with any status other than 429, 403, and 5xx
(e.g. 404 or 0) leaves the whole throttler state unchanged. -/
theorem claim_C10 (st : DomainThrottler) (d : String) (status : Nat)
    (ra : Option ℚ) (h429 : status ≠ 429) (h403 : status ≠ 403)
    (h5 : status < 500) :
    st.report_failure d status ra = st :=
  DomainThrottler.report_failure_other_status st d status ra h429 h403 h5

/-- Witness for C10: statuses 404 and 0 on concrete states. -/
theorem claim_C10_witness :
    (({} : DomainThrottler).report_failure "ex.com" 404 none = {})
    ∧ (({ extra_delays := [("ex.com", 4)] } : DomainThrottler).report_failure "ex.com" 0
        (some 7) = { extra_delays := [("ex.com", 4)] }) :=
  ⟨claim_C10 {} "ex.com" 404 none (by norm_num) (by norm_num) (by norm_num),
   claim_C10 { extra_delays := [("ex.com", 4)] } "ex.com" 0 (some 7)
     (by norm_num) (by norm_num) (by norm_num)⟩

end FinancialScraper
